import Mathlib

/-!
Verification development for the AR Gaussian-splat portal system
(`src/src/PortalSystem.ts`, class `PortalSystem`).

The class is shallowly embedded as a pure state type `Portal.PortalState`
together with one Lean function per public operation (`place`, `update`,
`loadSplat` and the asynchronous completions of the splat-load promise).
Numeric fields are modelled over `ℚ`; the yaw-only billboarding geometry of
`place` (which needs square roots for three.js `Vector3.normalize`) is
modelled over `ℝ` in a dedicated section.

Modelling conventions, each noted at its definition:
* `update` receives the camera position already expressed in the assembly's
  local frame (only its `z` coordinate is read by the source); the
  `worldToLocal` conversion is pure linear algebra on the group transform.
* `fitSplatToPortal` receives the splat's bounding box as measured by
  `Box3.setFromObject` after the source has reset the viewer/splat
  transforms, i.e. the intrinsic bounds of the splat geometry.
* Promise resolution is modelled by explicit completion transitions
  (`loadSuccess` / `loadFailure`) on the state.
-/

namespace Portal

/-- three.js stencil compare functions used by the source
(`THREE.AlwaysStencilFunc`, `THREE.EqualStencilFunc`). -/
inductive StencilFunc where
  | always
  | equal
deriving DecidableEq

/-- three.js stencil operations used by the source
(`THREE.KeepStencilOp`, `THREE.ReplaceStencilOp`). -/
inductive StencilOp where
  | keep
  | replace
deriving DecidableEq

/-- A 3-component vector over `ℚ` (three.js `Vector3`). -/
structure Vec3 where
  x : ℚ
  y : ℚ
  z : ℚ
deriving DecidableEq

/-- Axis-aligned bounding box (three.js `Box3`). -/
structure Box3 where
  min : Vec3
  max : Vec3
deriving DecidableEq

/-- `Box3.getSize`: componentwise `max - min`. -/
def Box3.size (b : Box3) : Vec3 :=
  ⟨b.max.x - b.min.x, b.max.y - b.min.y, b.max.z - b.min.z⟩

/-- The stencil-related material state the source mutates in
`setSplatStencil`. -/
structure MaterialStencil where
  stencilWrite : Bool
  stencilFunc : StencilFunc
  stencilRef : ℤ
  stencilFail : StencilOp
  stencilZFail : StencilOp
  stencilZPass : StencilOp
deriving DecidableEq

/-- Scale and position of an `Object3D` (rotations of the viewer/splat stay
at their defaults in the source and are omitted). -/
structure Transform where
  scale : Vec3
  position : Vec3
deriving DecidableEq

/-- The loaded splat mesh (`viewer.splatMesh` / `this.splatMesh`): its
material stencil state, the flags the load handler sets, its transform, and
its intrinsic bounding box (geometry bounds at identity transform). -/
structure SplatMesh where
  material : MaterialStencil
  frustumCulled : Bool
  renderOrder : ℤ
  transform : Transform
  bounds : Box3
deriving DecidableEq

/-- A `DropInViewer` instance. `gen` is the object identity: every
`createFreshViewer` call produces a new generation. -/
structure Viewer where
  gen : ℕ
  transform : Transform
deriving DecidableEq

/-- The stored door `AnimationAction`: current playback time and whether it
is playing. `reset()` sets the time to `0`; `play()` starts it. -/
structure AnimAction where
  time : ℚ
  running : Bool
deriving DecidableEq

/-- The crossing state of the spec (`Outside`/`Inside`); the source stores
it as the boolean `isInside`. -/
inductive CrossingState where
  | Outside
  | Inside
deriving DecidableEq

/-- The mutable fields of `PortalSystem` relevant to the verified claims.
`splatOwnerGen` is a ghost field recording which viewer generation the mesh
in `splatMesh` belongs to: in the source `this.splatMesh` aliases
`viewer.splatMesh` of the viewer that loaded it, and `createFreshViewer`
removes that viewer (with its mesh) from the group. `pendingUrl` is a ghost
field recording the URL captured by the in-flight load promise. -/
structure PortalState where
  visible : Bool
  isInside : Bool
  isLoading : Bool
  lastStencilEnabled : Bool
  lastCameraLocalZ : Option ℚ
  groupPosition : Vec3
  viewer : Option Viewer
  splatMesh : Option SplatMesh
  splatOwnerGen : Option ℕ
  storedAction : Option AnimAction
  pendingUrl : Option String
  nextViewerGen : ℕ
deriving DecidableEq

/-- `private readonly outsideThresholdZ = 0.12`. -/
def outsideThresholdZ : ℚ := 12 / 100

/-- `private readonly insideThresholdZ = -0.12`. -/
def insideThresholdZ : ℚ := -(12 / 100)

/-- `private readonly viewerBehindDoorZ = -0.9`. -/
def viewerBehindDoorZ : ℚ := -(9 / 10)

/-- `private readonly portalOpeningWidth = 0.68`. -/
def portalOpeningWidth : ℚ := 68 / 100

/-- `private readonly portalOpeningHeight = 1.75`. -/
def portalOpeningHeight : ℚ := 175 / 100

/-- `private readonly portalFitPadding = 0.644`. -/
def portalFitPadding : ℚ := 644 / 1000

/-- `private readonly portalOpeningScaleDefault = 0.75`. -/
def portalOpeningScaleDefault : ℚ := 3 / 4

/-- `THREE.MathUtils.clamp(value, min, max) = Math.max(min, Math.min(max, value))`. -/
def mathClamp (value lo hi : ℚ) : ℚ := max lo (min hi value)

/-- The URL query parameters read by the source (`?openingScale`,
`?openingOffsetX`). `none` models an absent parameter; a present parameter
is modelled by its parsed (finite) numeric value. -/
structure UrlConfig where
  openingScale : Option ℚ
  openingOffsetX : Option ℚ
deriving DecidableEq

/-- The default configuration: no URL overrides. -/
def defaultConfig : UrlConfig := ⟨none, none⟩

/-- Shared body of `getPortalOpeningWidth`/`getPortalOpeningHeight`:
the `openingScale` parameter (default `portalOpeningScaleDefault`) clamped
to `[0.1, 1.0]`. Over `ℚ` the `Number.isFinite` guard always holds. -/
def safeOpeningScale (c : UrlConfig) : ℚ :=
  mathClamp (c.openingScale.getD portalOpeningScaleDefault) (1 / 10) 1

/-- `private getPortalOpeningWidth()`. -/
def getPortalOpeningWidth (c : UrlConfig) : ℚ :=
  portalOpeningWidth * safeOpeningScale c

/-- `private getPortalOpeningHeight()`. -/
def getPortalOpeningHeight (c : UrlConfig) : ℚ :=
  portalOpeningHeight * safeOpeningScale c

/-- `private getPortalOpeningOffsetX()`; the `portalAnchor` constant is
`'bottomLeft'`, so the early `return 0` branch is dead. -/
def getPortalOpeningOffsetX (c : UrlConfig) : ℚ :=
  let scaledWidth := portalOpeningWidth * safeOpeningScale c
  let baseAnchorOffsetX := -(portalOpeningWidth - scaledWidth) / 2
  let override := c.openingOffsetX.getD 0
  let safeOverride := mathClamp override (-(2 / 10)) (2 / 10)
  baseAnchorOffsetX + safeOverride

/-- `private fitSplatToPortal(viewer, splatRoot)`. The source first resets
the viewer and splat transforms, then measures the world bounding box of
the reset splat (`Box3.setFromObject`); `bounds` is that measured box,
i.e. the splat's intrinsic bounds (the reset viewer only translates along
z, which does not affect the x/y extents used below). Returns the
resulting `(viewer, splatRoot)` transforms. Over `ℚ` the `Number.isFinite`
guards always hold. -/
def fitSplatToPortal (c : UrlConfig) (bounds : Box3)
    (_viewer _splatRoot : Transform) : Transform × Transform :=
  let viewer : Transform := ⟨⟨1, 1, 1⟩, ⟨0, 0, viewerBehindDoorZ⟩⟩
  let splatRoot : Transform := ⟨⟨1, 1, 1⟩, ⟨0, 0, 0⟩⟩
  let size := bounds.size
  if size.x ≤ 0 ∨ size.y ≤ 0 then (viewer, splatRoot)
  else
    let openingWidth := getPortalOpeningWidth c
    let openingHeight := getPortalOpeningHeight c
    let scaleToFit := min (openingWidth / size.x) (openingHeight / size.y) * portalFitPadding
    if scaleToFit ≤ 0 then (viewer, splatRoot)
    else
      let clampedScale := mathClamp scaleToFit (1 / 100) 50
      let bottomY := bounds.min.y
      let posY := -bottomY * clampedScale
      -- portalAnchor = 'bottomLeft'
      let openingLeftX := getPortalOpeningOffsetX c - openingWidth / 2
      let contentLeftX := bounds.min.x
      let posX := openingLeftX - contentLeftX * clampedScale
      (viewer, ⟨⟨clampedScale, clampedScale, clampedScale⟩, ⟨posX, posY, 0⟩⟩)

/-- The material mutation performed by `setSplatStencil` on each mesh
child of the splat (modelled with a single material). -/
def applyStencil (enable : Bool) (m : MaterialStencil) : MaterialStencil :=
  if enable then
    { m with stencilWrite := true, stencilFunc := .equal, stencilRef := 1,
             stencilFail := .keep, stencilZFail := .keep, stencilZPass := .keep }
  else
    { m with stencilWrite := false, stencilFunc := .always }

/-- `private setSplatStencil(enable)`: no-op when no splat mesh is
attached; otherwise records `lastStencilEnabled` and rewrites the mesh
material's stencil state. -/
def setSplatStencil (s : PortalState) (enable : Bool) : PortalState :=
  match s.splatMesh with
  | none => s
  | some m =>
    { s with lastStencilEnabled := enable,
             splatMesh := some { m with material := applyStencil enable m.material } }

/-- `private playDoorAnimation()`: `reset()` then `play()` on the stored
action, when one exists. -/
def playDoorAnimation (s : PortalState) : PortalState :=
  { s with storedAction := s.storedAction.map (fun _ => ⟨0, true⟩) }

/-- `mixer.update(0.016)`: advances the stored action when it is playing. -/
def advanceAction (a : AnimAction) : AnimAction :=
  if a.running then { a with time := a.time + 16 / 1000 } else a

/-- `public place(position, camera)`: copies the ground position, shows the
assembly, applies the yaw-only look-at (orientation modelled separately by
`placeBasis` below), forces the crossing state to Outside, re-enables the
splat stencil when a mesh is attached, and restarts the door animation. -/
def place (s : PortalState) (position _cameraWorld : Vec3) : PortalState :=
  let s := { s with groupPosition := position, visible := true, isInside := false }
  let s := if s.splatMesh.isSome then setSplatStencil s true else s
  playDoorAnimation s

/-- `public update(camera)`. The source converts the camera world position
into the assembly's local frame and reads only its `z` coordinate;
`cameraLocalZ` is that coordinate. -/
def update (s : PortalState) (cameraLocalZ : ℚ) : PortalState :=
  let s := { s with storedAction := s.storedAction.map advanceAction }
  if !s.visible || !s.splatMesh.isSome then s
  else
    let s := { s with lastCameraLocalZ := some cameraLocalZ }
    if cameraLocalZ < insideThresholdZ then
      if !s.isInside then setSplatStencil { s with isInside := true } false else s
    else if cameraLocalZ > outsideThresholdZ then
      if s.isInside then setSplatStencil { s with isInside := false } true else s
    else s

/-- `private createFreshViewer()`: removes the current viewer (and any mesh
it carries) from the group and installs a fresh `DropInViewer` positioned
at `(0, 0, viewerBehindDoorZ)`. -/
def createFreshViewer (s : PortalState) : PortalState :=
  { s with viewer := some ⟨s.nextViewerGen, ⟨⟨1, 1, 1⟩, ⟨0, 0, viewerBehindDoorZ⟩⟩⟩,
           nextViewerGen := s.nextViewerGen + 1 }

/-- The settled value `loadSplat` returns synchronously. -/
inductive LoadReply where
  | resolvedIgnored
  | rejectedNoViewer
  | started
deriving DecidableEq

/-- How an in-flight load eventually settles. -/
inductive LoadOutcome where
  | ok
  | error (e : ℕ)
deriving DecidableEq

/-- `public loadSplat(url)` up to its first suspension point: the busy
guard, the viewer recreation, and the start of `addSplatScene`. -/
def loadSplat (s : PortalState) (url : String) : PortalState × LoadReply :=
  if s.isLoading then (s, .resolvedIgnored)
  else
    let s := { s with isLoading := true }
    let s := createFreshViewer s
    match s.viewer with
    | none => ({ s with isLoading := false }, .rejectedNoViewer)
    | some _ => ({ s with pendingUrl := some url }, .started)

/-- The `.then` continuation of `loadSplat`: clears the busy flag, stores
`viewer.splatMesh` (the loader's result `raw`, `none` when the viewer
exposes no mesh), and when a mesh exists configures it (frustum culling
off, render order 1, state Outside, stencil clipping on) and runs the
immediate fit of `applyDeferredFit` (the deferred re-fits re-run
`fitSplatToPortal` on the same bounds). -/
def loadSuccess (c : UrlConfig) (s : PortalState) (raw : Option SplatMesh) :
    PortalState :=
  let s := { s with isLoading := false, splatMesh := raw,
                    splatOwnerGen := s.viewer.map Viewer.gen,
                    pendingUrl := none }
  match raw, s.viewer with
  | some m, some v =>
    let s := { s with splatMesh := some { m with frustumCulled := false, renderOrder := 1 },
                      isInside := false }
    let s := setSplatStencil s true
    match s.splatMesh with
    | some m2 =>
      let fitted := fitSplatToPortal c m2.bounds v.transform m2.transform
      { s with viewer := some { v with transform := fitted.1 },
               splatMesh := some { m2 with transform := fitted.2 } }
    | none => s
  | _, _ => s

/-- The `.catch` continuation of `loadSplat`: clears the busy flag and
rethrows the error to the caller. -/
def loadFailure (s : PortalState) (e : ℕ) : PortalState × LoadOutcome :=
  ({ s with isLoading := false, pendingUrl := none }, .error e)

/-- The state right after the constructor: hidden, Outside, not loading,
`lastStencilEnabled` initialised `true`, no mesh, viewer generation 0
installed by the constructor's `createFreshViewer` call. -/
def initState : PortalState :=
  { visible := false, isInside := false, isLoading := false,
    lastStencilEnabled := true, lastCameraLocalZ := none,
    groupPosition := ⟨0, 0, 0⟩,
    viewer := some ⟨0, ⟨⟨1, 1, 1⟩, ⟨0, 0, viewerBehindDoorZ⟩⟩⟩,
    splatMesh := none, splatOwnerGen := none, storedAction := none,
    pendingUrl := none, nextViewerGen := 1 }

/-- The crossing state of the spec, read off the `isInside` boolean. -/
def crossingState (s : PortalState) : CrossingState :=
  if s.isInside then .Inside else .Outside

/-- The splat mesh currently attached to the assembly's group: the mesh is
in the scene graph exactly when the viewer that owns it is the current one
(`createFreshViewer` removes the previous viewer from the group). -/
def attachedSplat (s : PortalState) : Option SplatMesh :=
  match s.viewer with
  | none => none
  | some v => if s.splatOwnerGen = some v.gen then s.splatMesh else none

/-- Iterated per-frame updates over a list of camera local-z samples. -/
def runUpdates (s : PortalState) (zs : List ℚ) : PortalState :=
  zs.foldl update s

/-- The intermediate states produced by feeding the samples `zs` to the
per-frame update, one state per sample. -/
def stateTrace (s : PortalState) : List ℚ → List PortalState
  | [] => []
  | z :: zs => update s z :: stateTrace (update s z) zs

/-- The crossing-state trace: the state after each sample of `zs`. -/
def crossingTrace (s : PortalState) (zs : List ℚ) : List CrossingState :=
  (stateTrace s zs).map crossingState

/-- Rendering of the `isInside` boolean as the spec's crossing state. -/
def boolToCrossing (b : Bool) : CrossingState :=
  if b then .Inside else .Outside

/-- The pure transition of the hysteresis state machine on `isInside`,
extracted from the branch structure of `update`. -/
def crossStep (inside : Bool) (z : ℚ) : Bool :=
  if z < insideThresholdZ then true
  else if z > outsideThresholdZ then false
  else inside

/-- The trace of the pure hysteresis machine `crossStep`. -/
def boolTrace (b : Bool) : List ℚ → List Bool
  | [] => []
  | z :: zs => crossStep b z :: boolTrace (crossStep b z) zs

/-- One operation of the system's public surface (per-frame update, the
placement gesture, a load start, and the two promise completions). -/
inductive Op where
  | opPlace (position cameraWorld : Vec3)
  | opUpdate (cameraLocalZ : ℚ)
  | opLoad (url : String)
  | opLoadOk (raw : Option SplatMesh)
  | opLoadFail (e : ℕ)

/-- Apply one operation to the state (discarding returned values). -/
def applyOp (c : UrlConfig) (s : PortalState) : Op → PortalState
  | .opPlace p cam => place s p cam
  | .opUpdate z => update s z
  | .opLoad u => (loadSplat s u).1
  | .opLoadOk raw => loadSuccess c s raw
  | .opLoadFail e => (loadFailure s e).1

/-- Apply a sequence of operations from a starting state. -/
def runOps (c : UrlConfig) (s : PortalState) (ops : List Op) : PortalState :=
  ops.foldl (applyOp c) s

/-- Boolean rendering of the stencil/crossing-state coupling: whenever a
splat mesh is attached in `splatMesh`, its stencil test is enabled exactly
when the state is Outside, with `EQUAL` against reference 1 and `KEEP` ops
when enabled, and the function reset to `ALWAYS` when disabled. -/
def stencilMatchesState (s : PortalState) : Bool :=
  match s.splatMesh with
  | none => true
  | some m =>
    m.material.stencilWrite = !s.isInside &&
    (if s.isInside then
      m.material.stencilFunc = StencilFunc.always
    else
      m.material.stencilFunc = StencilFunc.equal &&
      m.material.stencilRef = 1 &&
      m.material.stencilFail = StencilOp.keep &&
      m.material.stencilZFail = StencilOp.keep &&
      m.material.stencilZPass = StencilOp.keep)

/-! Concrete states and inputs used by witnesses and counterexamples. -/

/-- A baseline transform: unit scale at the origin. -/
def idTransform : Transform := ⟨⟨1, 1, 1⟩, ⟨0, 0, 0⟩⟩

/-- A concrete material in the Outside (stencil-clipping) profile. -/
def outsideMaterial : MaterialStencil :=
  ⟨true, .equal, 1, .keep, .keep, .keep⟩

/-- A concrete loaded splat mesh with unit-cube intrinsic bounds. -/
def exampleMesh : SplatMesh :=
  ⟨outsideMaterial, false, 1, idTransform, ⟨⟨0, 0, 0⟩, ⟨1, 1, 1⟩⟩⟩

/-- A concrete placed state with a loaded splat, camera Outside.
Corresponds to the state after a successful load and a placement. -/
def examplePlacedState : PortalState :=
  { visible := true, isInside := false, isLoading := false,
    lastStencilEnabled := true, lastCameraLocalZ := none,
    groupPosition := ⟨0, 0, -2⟩,
    viewer := some ⟨1, ⟨⟨1, 1, 1⟩, ⟨0, 0, viewerBehindDoorZ⟩⟩⟩,
    splatMesh := some exampleMesh, splatOwnerGen := some 1,
    storedAction := some ⟨0, false⟩,
    pendingUrl := none, nextViewerGen := 2 }

/-- The camera local-z sample sequence of spec Scenario C. -/
def scenarioCSamples : List ℚ :=
  [5/10, 3/10, 15/100, 5/100, -(5/100), -(15/100), -(3/10)]

/-- The bounding box of the C5 counterexample: content 102 m wide. -/
def wideBox : Box3 := ⟨⟨0, 0, 0⟩, ⟨102, 1, 1⟩⟩

/-- A degenerate bounding box with zero width. -/
def degenerateBox : Box3 := ⟨⟨0, 0, 0⟩, ⟨0, 1, 1⟩⟩

/-- A prior (non-baseline) splat transform for the C6 counterexample. -/
def priorSplatTransform : Transform := ⟨⟨1/2, 1/2, 1/2⟩, ⟨3, 4, 5⟩⟩

/-- The configuration of spec Scenario B: `?openingScale=1`, under which
the effective opening is the full `0.68 × 1.75` metres. -/
def scenarioBConfig : UrlConfig := ⟨some 1, none⟩

/-- The content bounding volume of spec Scenario B: size `(2, 5, 1)`. -/
def scenarioBBox : Box3 := ⟨⟨0, 0, 0⟩, ⟨2, 5, 1⟩⟩

/-- A state with a load in flight (as between `loadSplat` and its
completion). -/
def exampleBusyState : PortalState :=
  { examplePlacedState with isLoading := true, pendingUrl := some "first" }

/-- Auxiliary invariant for the stencil/crossing-state coupling: the viewer
reference is never null (the constructor and `createFreshViewer` always
install one) and the attached splat's stencil profile matches the crossing
state. -/
def stencilAuxInv (s : PortalState) : Bool :=
  s.viewer.isSome && stencilMatchesState s

end Portal

namespace PortalGeo

/-! Yaw-only billboarding geometry of `place`, over `ℝ`.

`place` runs `this.group.lookAt(targetPos)` where `targetPos` is the camera
world position with its `y` forced to the assembly's `y`. For a non-camera
`Object3D` whose parent is the scene, three.js `Object3D.lookAt` orients
the object by the rotation matrix `Matrix4.lookAt(target, position, up)`
with `up = (0, 1, 0)`; its columns are the object's local x/y/z axes in
world space. `Vector3.normalize` divides by `length() || 1`, which needs
square roots, hence `ℝ` and noncomputable definitions in this section. -/

/-- A 3-component vector over `ℝ`. -/
structure VecR where
  x : ℝ
  y : ℝ
  z : ℝ

/-- Componentwise subtraction (`Vector3.subVectors`). -/
def VecR.sub (a b : VecR) : VecR := ⟨a.x - b.x, a.y - b.y, a.z - b.z⟩

/-- Cross product (`Vector3.crossVectors`). -/
def VecR.cross (a b : VecR) : VecR :=
  ⟨a.y * b.z - a.z * b.y, a.z * b.x - a.x * b.z, a.x * b.y - a.y * b.x⟩

/-- Squared length (`Vector3.lengthSq`). -/
def VecR.lengthSq (v : VecR) : ℝ := v.x * v.x + v.y * v.y + v.z * v.z

/-- Length (`Vector3.length`). -/
noncomputable def VecR.len (v : VecR) : ℝ := Real.sqrt v.lengthSq

/-- Scalar multiple. -/
def VecR.smul (k : ℝ) (v : VecR) : VecR := ⟨k * v.x, k * v.y, k * v.z⟩

/-- `Vector3.normalize`: `divideScalar(length() || 1)`. -/
noncomputable def VecR.normalize (v : VecR) : VecR :=
  let l := if v.len = 0 then 1 else v.len
  ⟨v.x / l, v.y / l, v.z / l⟩

/-- An orthonormal basis: the columns of a three.js rotation matrix, i.e.
the object's local x/y/z axes expressed in world coordinates. -/
structure Basis3 where
  x : VecR
  y : VecR
  z : VecR

/-- `Matrix4.lookAt(eye, target, up)`: the rotation basis three.js builds,
with both degenerate branches (`eye = target`, and `up` parallel to the
view direction) modelled as in the source. -/
noncomputable def lookAtBasis (eye target up : VecR) : Basis3 :=
  let z0 := eye.sub target
  let z1 := if z0.lengthSq = 0 then { z0 with z := 1 } else z0
  let z2 := z1.normalize
  let x0 := up.cross z2
  let zf :=
    if x0.lengthSq = 0 then
      (if |up.z| = 1 then { z2 with x := z2.x + 1/10000 }
       else { z2 with z := z2.z + 1/10000 }).normalize
    else z2
  let xf := (up.cross zf).normalize
  let yf := zf.cross xf
  ⟨xf, yf, zf⟩

/-- Default `Object3D.up`. -/
def worldUp : VecR := ⟨0, 1, 0⟩

/-- `Object3D.lookAt(target)` for a non-camera object at world position
`position`: three.js calls `Matrix4.lookAt(target, position, up)`. -/
noncomputable def objectLookAt (position target : VecR) : Basis3 :=
  lookAtBasis target position worldUp

/-- The orientation `place(position, camera)` gives the assembly: a
look-at toward the camera world position with its `y` coordinate replaced
by the assembly's own `y` (`targetPos.y = position.y`). -/
noncomputable def placeBasis (position cameraWorld : VecR) : Basis3 :=
  objectLookAt position ⟨cameraWorld.x, position.y, cameraWorld.z⟩

end PortalGeo

namespace Portal

/-! Helper lemmas about the per-frame update. -/

theorem setSplatStencil_isInside (s : PortalState) (e : Bool) :
    (setSplatStencil s e).isInside = s.isInside := by
  unfold setSplatStencil
  cases s.splatMesh <;> rfl

theorem setSplatStencil_visible (s : PortalState) (e : Bool) :
    (setSplatStencil s e).visible = s.visible := by
  unfold setSplatStencil
  cases s.splatMesh <;> rfl

theorem setSplatStencil_isSome (s : PortalState) (e : Bool) :
    (setSplatStencil s e).splatMesh.isSome = s.splatMesh.isSome := by
  unfold setSplatStencil
  cases hm : s.splatMesh <;> simp [hm]

theorem update_isInside (s : PortalState) (z : ℚ) :
    (update s z).isInside =
      if s.visible && s.splatMesh.isSome then crossStep s.isInside z
      else s.isInside := by
  unfold update crossStep
  cases hv : s.visible <;> cases hm : s.splatMesh <;>
    simp [hv, hm, setSplatStencil_isInside] <;>
    by_cases h1 : z < insideThresholdZ <;>
      by_cases h2 : z > outsideThresholdZ <;>
        cases hi : s.isInside <;>
          simp [h1, h2, hi, setSplatStencil_isInside]

theorem update_visible (s : PortalState) (z : ℚ) :
    (update s z).visible = s.visible := by
  unfold update
  cases hv : s.visible <;> cases hm : s.splatMesh <;>
    simp [hv, hm, setSplatStencil_visible] <;>
    by_cases h1 : z < insideThresholdZ <;>
      by_cases h2 : z > outsideThresholdZ <;>
        cases hi : s.isInside <;>
          simp [h1, h2, hi, setSplatStencil_visible]

theorem update_isSome (s : PortalState) (z : ℚ) :
    (update s z).splatMesh.isSome = s.splatMesh.isSome := by
  unfold update
  cases hv : s.visible <;> cases hm : s.splatMesh <;>
    simp [hv, hm, setSplatStencil_isSome] <;>
    by_cases h1 : z < insideThresholdZ <;>
      by_cases h2 : z > outsideThresholdZ <;>
        cases hi : s.isInside <;>
          simp [h1, h2, hi, setSplatStencil_isSome]

theorem runUpdates_isInside (zs : List ℚ) :
    ∀ s : PortalState, s.visible = true → s.splatMesh.isSome = true →
      (runUpdates s zs).isInside = zs.foldl crossStep s.isInside := by
  induction zs with
  | nil => intro s _ _; rfl
  | cons z zs ih =>
    intro s hv hm
    have hv' : (update s z).visible = true := by rw [update_visible, hv]
    have hm' : (update s z).splatMesh.isSome = true := by rw [update_isSome, hm]
    calc (runUpdates s (z :: zs)).isInside
        = (runUpdates (update s z) zs).isInside := rfl
      _ = zs.foldl crossStep (update s z).isInside := ih _ hv' hm'
      _ = zs.foldl crossStep (crossStep s.isInside z) := by
            rw [update_isInside, hv, hm]; rfl
      _ = (z :: zs).foldl crossStep s.isInside := rfl

theorem crossingTrace_eq (zs : List ℚ) :
    ∀ s : PortalState, s.visible = true → s.splatMesh.isSome = true →
      crossingTrace s zs = (boolTrace s.isInside zs).map boolToCrossing := by
  induction zs with
  | nil => intro s _ _; rfl
  | cons z zs ih =>
    intro s hv hm
    have hv' : (update s z).visible = true := by rw [update_visible, hv]
    have hm' : (update s z).splatMesh.isSome = true := by rw [update_isSome, hm]
    have hstep : (update s z).isInside = crossStep s.isInside z := by
      rw [update_isInside, hv, hm]; rfl
    have htail := ih _ hv' hm'
    unfold crossingTrace at htail ⊢
    simp only [stateTrace, boolTrace, List.map_cons, List.cons.injEq]
    constructor
    · unfold crossingState boolToCrossing
      rw [hstep]
    · rw [htail, hstep]

theorem foldl_crossStep_stays_true (l : List ℚ)
    (h : ∀ z ∈ l, z ≤ outsideThresholdZ) :
    l.foldl crossStep true = true := by
  induction l with
  | nil => rfl
  | cons z zs ih =>
    have hz := h z (List.mem_cons_self z zs)
    have hstep : crossStep true z = true := by
      unfold crossStep
      have : ¬ z > outsideThresholdZ := not_lt.mpr hz
      simp [this]
    simp only [List.foldl_cons, hstep]
    exact ih (fun y hy => h y (List.mem_cons_of_mem z hy))

theorem foldl_crossStep_antitone (zs : List ℚ)
    (h : zs.Pairwise (fun a b => b ≤ a)) (n : ℕ) :
    (zs.take n).foldl crossStep false =
      (zs.take n).any (fun z => decide (z < insideThresholdZ)) := by
  induction zs generalizing n with
  | nil => simp
  | cons z zs ih =>
    rcases n with _ | m
    · simp
    · have hhead : ∀ y ∈ zs, y ≤ z := (List.pairwise_cons.mp h).1
      have htail : zs.Pairwise (fun a b => b ≤ a) := (List.pairwise_cons.mp h).2
      by_cases hz : z < insideThresholdZ
      · have hstep : crossStep false z = true := by unfold crossStep; simp [hz]
        have hall : ∀ y ∈ zs.take m, y ≤ outsideThresholdZ := by
          intro y hy
          have h1 : y ≤ z := hhead y (List.mem_of_mem_take hy)
          have h2 : insideThresholdZ ≤ outsideThresholdZ := by
            unfold insideThresholdZ outsideThresholdZ; norm_num
          exact le_trans h1 (le_trans (le_of_lt hz) h2)
        simp only [List.take_succ_cons, List.foldl_cons, hstep, List.any_cons]
        rw [foldl_crossStep_stays_true _ hall]
        simp [hz]
      · have hstep : crossStep false z = false := by
          unfold crossStep
          simp [hz]
        simp only [List.take_succ_cons, List.foldl_cons, hstep, List.any_cons]
        rw [ih htail m]
        simp [hz]

/-- Claim C1: Scenario C of the spec: starting Outside (with the assembly
placed and a splat mesh attached), the local-z samples
`[0.5, 0.3, 0.15, 0.05, -0.05, -0.15, -0.3]` produce the crossing-state
trace `[Outside, Outside, Outside, Outside, Outside, Inside, Inside]`;
and for any monotonically decreasing sample sequence the state after any
prefix is `Inside` exactly when the prefix already contains a sample
strictly below the inside threshold, so exactly one Outside-to-Inside
transition occurs, at the first sample strictly below `-0.12`. -/
theorem crossing_scenarioC (s : PortalState)
    (hv : s.visible = true) (hm : s.splatMesh.isSome = true)
    (h0 : s.isInside = false) :
    crossingTrace s scenarioCSamples =
      [.Outside, .Outside, .Outside, .Outside, .Outside, .Inside, .Inside] ∧
    ∀ zs : List ℚ, zs.Pairwise (fun a b => b ≤ a) →
      ∀ n : ℕ, (runUpdates s (zs.take n)).isInside =
        (zs.take n).any (fun z => decide (z < insideThresholdZ)) := by
  constructor
  · rw [crossingTrace_eq _ _ hv hm, h0]
    unfold scenarioCSamples
    norm_num [boolTrace, crossStep, insideThresholdZ, outsideThresholdZ, boolToCrossing]
  · intro zs hanti n
    rw [runUpdates_isInside _ _ hv hm, h0]
    exact foldl_crossStep_antitone zs hanti n

/-- Witness for C1: a concrete placed state with a loaded splat realises
the hypotheses, and Scenario C evaluates to the claimed trace. -/
theorem crossing_scenarioC_witness :
    crossingTrace examplePlacedState scenarioCSamples =
      [.Outside, .Outside, .Outside, .Outside, .Outside, .Inside, .Inside] :=
  (crossing_scenarioC examplePlacedState rfl rfl rfl).1

/-- Claim C2: Hysteresis dead zone: samples strictly between the inside
and outside thresholds never change the crossing state, from any starting
state. -/
theorem crossing_deadZone (s : PortalState) (zs : List ℚ)
    (h : ∀ z ∈ zs, insideThresholdZ < z ∧ z < outsideThresholdZ) :
    (runUpdates s zs).isInside = s.isInside := by
  induction zs generalizing s with
  | nil => rfl
  | cons z zs ih =>
    have hz := h z (List.mem_cons_self z zs)
    have hstep : (update s z).isInside = s.isInside := by
      rw [update_isInside]
      have h1 : ¬ z < insideThresholdZ := not_lt.mpr (le_of_lt hz.1)
      have h2 : ¬ z > outsideThresholdZ := not_lt.mpr (le_of_lt hz.2)
      unfold crossStep
      simp [h1, h2]
    calc (runUpdates s (z :: zs)).isInside
        = (runUpdates (update s z) zs).isInside := rfl
      _ = (update s z).isInside := ih _ (fun y hy => h y (List.mem_cons_of_mem z hy))
      _ = s.isInside := hstep

/-- Witness for C2: two concrete dead-zone samples leave the example
placed state Outside. -/
theorem crossing_deadZone_witness :
    (runUpdates examplePlacedState [5/100, -(5/100)]).isInside =
      examplePlacedState.isInside := by
  apply crossing_deadZone
  intro z hz
  have h2 : z = 5/100 ∨ z = -(5/100) := by simpa using hz
  rcases h2 with rfl | rfl <;>
    exact ⟨by norm_num [insideThresholdZ], by norm_num [outsideThresholdZ]⟩

/-- Claim C3: Placement resets the crossing state: for every prior state
and every ground/camera position, immediately after `place` the state is
Outside, the assembly is visible, and when a door animation action exists
it has been restarted from time 0 and is playing. -/
theorem place_resets (s : PortalState) (pos cam : Vec3) :
    crossingState (place s pos cam) = .Outside ∧
    (place s pos cam).visible = true ∧
    (place s pos cam).storedAction =
      s.storedAction.map (fun _ => ⟨0, true⟩) := by
  unfold place playDoorAnimation crossingState
  cases hm : s.splatMesh with
  | none => simp [hm, setSplatStencil]
  | some m => simp [hm, setSplatStencil]

end Portal

namespace Portal

/-! Content-fitter lemmas. -/

theorem safeOpeningScale_mem (c : UrlConfig) :
    1/10 ≤ safeOpeningScale c ∧ safeOpeningScale c ≤ 1 := by
  unfold safeOpeningScale mathClamp
  constructor
  · exact le_max_left _ _
  · exact max_le (by norm_num) (min_le_left _ _)

theorem openingWidth_pos (c : UrlConfig) : 0 < getPortalOpeningWidth c := by
  unfold getPortalOpeningWidth portalOpeningWidth
  have h := (safeOpeningScale_mem c).1
  nlinarith

theorem openingHeight_pos (c : UrlConfig) : 0 < getPortalOpeningHeight c := by
  unfold getPortalOpeningHeight portalOpeningHeight
  have h := (safeOpeningScale_mem c).1
  nlinarith

/-- The applied fit scale when nothing is degenerate and no clamping
occurs: exactly the source formula. -/
theorem fit_scale_formula (c : UrlConfig) (b : Box3) (vt st : Transform)
    (hx : 0 < b.size.x) (hy : 0 < b.size.y)
    (hlo : 1/100 ≤ min (getPortalOpeningWidth c / b.size.x)
      (getPortalOpeningHeight c / b.size.y) * portalFitPadding)
    (hhi : min (getPortalOpeningWidth c / b.size.x)
      (getPortalOpeningHeight c / b.size.y) * portalFitPadding ≤ 50) :
    ((fitSplatToPortal c b vt st).2).scale =
      ⟨min (getPortalOpeningWidth c / b.size.x)
         (getPortalOpeningHeight c / b.size.y) * portalFitPadding,
       min (getPortalOpeningWidth c / b.size.x)
         (getPortalOpeningHeight c / b.size.y) * portalFitPadding,
       min (getPortalOpeningWidth c / b.size.x)
         (getPortalOpeningHeight c / b.size.y) * portalFitPadding⟩ := by
  unfold fitSplatToPortal
  have hguard : ¬ (b.size.x ≤ 0 ∨ b.size.y ≤ 0) := by
    push_neg
    exact ⟨hx, hy⟩
  rw [if_neg hguard]
  have hpos : (0:ℚ) <
      min (getPortalOpeningWidth c / b.size.x)
        (getPortalOpeningHeight c / b.size.y) * portalFitPadding :=
    lt_of_lt_of_le (by norm_num) hlo
  rw [if_neg (not_le.mpr hpos)]
  have hclamp : mathClamp
      (min (getPortalOpeningWidth c / b.size.x)
        (getPortalOpeningHeight c / b.size.y) * portalFitPadding) (1/100) 50 =
      min (getPortalOpeningWidth c / b.size.x)
        (getPortalOpeningHeight c / b.size.y) * portalFitPadding := by
    unfold mathClamp
    rw [min_eq_right hhi, max_eq_right hlo]
  dsimp only
  rw [hclamp]

/-- Claim C4: Content Fitter worked example (Scenario B): with the
effective opening `0.68 × 1.75` (configuration `openingScale = 1`),
padding `0.644`, and content bounds of size `(2, 5, 1)`, the applied scale
is the uniform scalar `min(0.68/2, 1.75/5) * 0.644 = 0.21896`; and in
general (whenever the bounds are non-degenerate and the formula value lies
inside the clamp range `[0.01, 50]`) the applied scale equals
`min(openingWidth / sizeX, openingHeight / sizeY) * fitPadding` on every
axis. -/
theorem fit_scenarioB :
    getPortalOpeningWidth scenarioBConfig = 68/100 ∧
    getPortalOpeningHeight scenarioBConfig = 175/100 ∧
    ((fitSplatToPortal scenarioBConfig scenarioBBox idTransform idTransform).2).scale =
      ⟨2737/12500, 2737/12500, 2737/12500⟩ ∧
    (2737/12500 : ℚ) = min ((68/100) / 2) ((175/100) / 5) * (644/1000) ∧
    ∀ (c : UrlConfig) (b : Box3) (vt st : Transform),
      0 < b.size.x → 0 < b.size.y →
      1/100 ≤ min (getPortalOpeningWidth c / b.size.x)
        (getPortalOpeningHeight c / b.size.y) * portalFitPadding →
      min (getPortalOpeningWidth c / b.size.x)
        (getPortalOpeningHeight c / b.size.y) * portalFitPadding ≤ 50 →
      ((fitSplatToPortal c b vt st).2).scale =
        ⟨min (getPortalOpeningWidth c / b.size.x)
           (getPortalOpeningHeight c / b.size.y) * portalFitPadding,
         min (getPortalOpeningWidth c / b.size.x)
           (getPortalOpeningHeight c / b.size.y) * portalFitPadding,
         min (getPortalOpeningWidth c / b.size.x)
           (getPortalOpeningHeight c / b.size.y) * portalFitPadding⟩ := by
  refine ⟨?_, ?_, ?_, ?_, fun c b vt st hx hy hlo hhi => fit_scale_formula c b vt st hx hy hlo hhi⟩
  · norm_num [getPortalOpeningWidth, safeOpeningScale, mathClamp, scenarioBConfig,
      portalOpeningWidth, portalOpeningScaleDefault]
  · norm_num [getPortalOpeningHeight, safeOpeningScale, mathClamp, scenarioBConfig,
      portalOpeningHeight, portalOpeningScaleDefault]
  · norm_num [fitSplatToPortal, scenarioBConfig, scenarioBBox, Box3.size,
      getPortalOpeningWidth, getPortalOpeningHeight, getPortalOpeningOffsetX,
      safeOpeningScale, mathClamp, portalOpeningWidth, portalOpeningHeight,
      portalFitPadding, portalOpeningScaleDefault, viewerBehindDoorZ, idTransform]
  · norm_num

/-- Witness for C4: the general formula clause applied to the Scenario B
input, with its hypotheses discharged there. -/
theorem fit_scenarioB_witness :
    ((fitSplatToPortal scenarioBConfig scenarioBBox idTransform idTransform).2).scale =
      ⟨min (getPortalOpeningWidth scenarioBConfig / scenarioBBox.size.x)
         (getPortalOpeningHeight scenarioBConfig / scenarioBBox.size.y) * portalFitPadding,
       min (getPortalOpeningWidth scenarioBConfig / scenarioBBox.size.x)
         (getPortalOpeningHeight scenarioBConfig / scenarioBBox.size.y) * portalFitPadding,
       min (getPortalOpeningWidth scenarioBConfig / scenarioBBox.size.x)
         (getPortalOpeningHeight scenarioBConfig / scenarioBBox.size.y) * portalFitPadding⟩ := by
  refine fit_scenarioB.2.2.2.2 scenarioBConfig scenarioBBox idTransform idTransform ?_ ?_ ?_ ?_ <;>
    norm_num [scenarioBBox, Box3.size, getPortalOpeningWidth, getPortalOpeningHeight,
      safeOpeningScale, mathClamp, scenarioBConfig, portalOpeningWidth,
      portalOpeningHeight, portalFitPadding, portalOpeningScaleDefault]

/-- Counterexample to C5 as stated: with the default opening
(`0.51 × 1.3125`) and content of size `(102, 1, 1)`, the formula value
`0.00322` is clamped up to `0.01`, and `0.01 * 102 = 1.02` exceeds the
opening width, so the fitted content overflows the opening. -/
theorem fit_overflow_cex :
    0 < wideBox.size.x ∧ 0 < wideBox.size.y ∧
    ¬ (((fitSplatToPortal defaultConfig wideBox idTransform idTransform).2).scale.x
        * wideBox.size.x ≤ getPortalOpeningWidth defaultConfig) := by
  refine ⟨by norm_num [wideBox, Box3.size], by norm_num [wideBox, Box3.size], ?_⟩
  norm_num [fitSplatToPortal, wideBox, Box3.size, defaultConfig,
    getPortalOpeningWidth, getPortalOpeningHeight, getPortalOpeningOffsetX,
    safeOpeningScale, mathClamp, portalOpeningWidth, portalOpeningHeight,
    portalFitPadding, portalOpeningScaleDefault, viewerBehindDoorZ, idTransform]

/-- Claim C5 (amended): whenever the unclamped fit scale
`min(openingWidth/sx, openingHeight/sy) * fitPadding` is at least the
lower clamp bound `0.01`, the applied scale is a single scalar used
identically on every axis and satisfies `scale * sx ≤ openingWidth` and
`scale * sy ≤ openingHeight`. (As literally stated the claim fails: for
content so large that the formula value falls below `0.01`, the clamp
raises the scale and the content overflows the opening, see the
counterexample.) -/
theorem fit_no_overflow (c : UrlConfig) (b : Box3) (vt st : Transform)
    (hx : 0 < b.size.x) (hy : 0 < b.size.y)
    (hlo : 1/100 ≤ min (getPortalOpeningWidth c / b.size.x)
      (getPortalOpeningHeight c / b.size.y) * portalFitPadding) :
    ((fitSplatToPortal c b vt st).2).scale.y =
      ((fitSplatToPortal c b vt st).2).scale.x ∧
    ((fitSplatToPortal c b vt st).2).scale.z =
      ((fitSplatToPortal c b vt st).2).scale.x ∧
    ((fitSplatToPortal c b vt st).2).scale.x * b.size.x ≤
      getPortalOpeningWidth c ∧
    ((fitSplatToPortal c b vt st).2).scale.x * b.size.y ≤
      getPortalOpeningHeight c := by
  have hw := openingWidth_pos c
  have hh := openingHeight_pos c
  set A := getPortalOpeningWidth c / b.size.x with hA
  set B := getPortalOpeningHeight c / b.size.y with hB
  have hA0 : 0 ≤ A := div_nonneg (le_of_lt hw) (le_of_lt hx)
  have hB0 : 0 ≤ B := div_nonneg (le_of_lt hh) (le_of_lt hy)
  have hpad1 : portalFitPadding ≤ 1 := by norm_num [portalFitPadding]
  have hpad0 : (0:ℚ) ≤ portalFitPadding := by norm_num [portalFitPadding]
  have hstfA : min A B * portalFitPadding ≤ A := by
    calc min A B * portalFitPadding ≤ A * 1 :=
          mul_le_mul (min_le_left _ _) hpad1 hpad0 hA0
      _ = A := mul_one A
  have hstfB : min A B * portalFitPadding ≤ B := by
    calc min A B * portalFitPadding ≤ B * 1 :=
          mul_le_mul (min_le_right _ _) hpad1 hpad0 hB0
      _ = B := mul_one B
  have hscale : ((fitSplatToPortal c b vt st).2).scale =
      ⟨mathClamp (min A B * portalFitPadding) (1/100) 50,
       mathClamp (min A B * portalFitPadding) (1/100) 50,
       mathClamp (min A B * portalFitPadding) (1/100) 50⟩ := by
    unfold fitSplatToPortal
    have hguard : ¬ (b.size.x ≤ 0 ∨ b.size.y ≤ 0) := by
      push_neg
      exact ⟨hx, hy⟩
    rw [if_neg hguard]
    have hpos : (0:ℚ) < min A B * portalFitPadding :=
      lt_of_lt_of_le (by norm_num) hlo
    rw [if_neg (not_le.mpr hpos)]
  have hclamp_le : mathClamp (min A B * portalFitPadding) (1/100) 50 ≤
      min A B * portalFitPadding := by
    unfold mathClamp
    exact max_le (le_trans hlo (le_refl _)) (min_le_right _ _)
  rw [hscale]
  refine ⟨rfl, rfl, ?_, ?_⟩
  · have h1 : mathClamp (min A B * portalFitPadding) (1/100) 50 ≤ A :=
      le_trans hclamp_le hstfA
    rw [hA] at h1
    exact (le_div_iff hx).mp h1
  · have h1 : mathClamp (min A B * portalFitPadding) (1/100) 50 ≤ B :=
      le_trans hclamp_le hstfB
    rw [hB] at h1
    exact (le_div_iff hy).mp h1

/-- Witness for C5 (amended): the Scenario B input realises the
hypotheses; the fitted content stays inside the `0.68 × 1.75` opening. -/
theorem fit_no_overflow_witness :
    ((fitSplatToPortal scenarioBConfig scenarioBBox idTransform idTransform).2).scale.x
      * scenarioBBox.size.x ≤ getPortalOpeningWidth scenarioBConfig := by
  refine (fit_no_overflow scenarioBConfig scenarioBBox idTransform idTransform ?_ ?_ ?_).2.2.1 <;>
    norm_num [scenarioBBox, Box3.size, getPortalOpeningWidth, getPortalOpeningHeight,
      safeOpeningScale, mathClamp, scenarioBConfig, portalOpeningWidth,
      portalOpeningHeight, portalFitPadding, portalOpeningScaleDefault]

/-- Counterexample to C6 as stated: a degenerate bounding box (zero X
size) does not leave the prior splat transform unmodified — the routine
has already reset the transforms before the degeneracy check. -/
theorem fit_degenerate_cex :
    degenerateBox.size.x ≤ 0 ∧
    ((fitSplatToPortal defaultConfig degenerateBox idTransform priorSplatTransform).2)
      ≠ priorSplatTransform := by
  constructor
  · norm_num [degenerateBox, Box3.size]
  · norm_num [fitSplatToPortal, degenerateBox, Box3.size, priorSplatTransform,
      viewerBehindDoorZ, Transform.mk.injEq, Vec3.mk.injEq]

/-- Claim C6 (amended): with a degenerate bounding volume (zero or
negative X or Y size; the non-finite branch of the source is the same
early return), the fit routine aborts before computing or applying any
fit scale, leaving the viewer and splat at the reset baseline transforms
(unit scale, viewer at `(0,0,-0.9)`, splat at the origin) — not at their
prior transforms, which the routine has already overwritten. -/
theorem fit_degenerate (c : UrlConfig) (b : Box3) (vt st : Transform)
    (hdeg : b.size.x ≤ 0 ∨ b.size.y ≤ 0) :
    fitSplatToPortal c b vt st =
      (⟨⟨1, 1, 1⟩, ⟨0, 0, viewerBehindDoorZ⟩⟩, ⟨⟨1, 1, 1⟩, ⟨0, 0, 0⟩⟩) := by
  unfold fitSplatToPortal
  rw [if_pos hdeg]

/-- Witness for C6 (amended): the degenerate box of the counterexample. -/
theorem fit_degenerate_witness :
    fitSplatToPortal defaultConfig degenerateBox idTransform priorSplatTransform =
      (⟨⟨1, 1, 1⟩, ⟨0, 0, viewerBehindDoorZ⟩⟩, ⟨⟨1, 1, 1⟩, ⟨0, 0, 0⟩⟩) :=
  fit_degenerate defaultConfig degenerateBox idTransform priorSplatTransform
    (Or.inl (by norm_num [degenerateBox, Box3.size]))

end Portal

namespace Portal

/-- Claim C7: At most one in-flight content load: while a load is pending,
a second `loadSplat` call returns a settled (ignored) completion and
leaves the whole state unchanged — no new load starts, nothing attached is
mutated — so the eventually-attached content is exactly what the pending
first request will attach. -/
theorem load_mutual_exclusion (s : PortalState) (url : String)
    (h : s.isLoading = true) :
    loadSplat s url = (s, .resolvedIgnored) ∧
    ∀ (c : UrlConfig) (raw : Option SplatMesh),
      loadSuccess c (loadSplat s url).1 raw = loadSuccess c s raw := by
  unfold loadSplat
  rw [if_pos h]
  exact ⟨rfl, fun c raw => rfl⟩

/-- Witness for C7: a concrete busy state ignores a second request. -/
theorem load_mutual_exclusion_witness :
    loadSplat exampleBusyState "second" = (exampleBusyState, .resolvedIgnored) :=
  (load_mutual_exclusion exampleBusyState "second" rfl).1

/-- Counterexample to C8 as stated: from a state with attached content, a
`loadSplat` that subsequently fails leaves no content attached — the old
viewer (carrying the old mesh) was removed from the group when the load
began, and the failure path does not restore it. -/
theorem load_failure_detach_cex :
    attachedSplat examplePlacedState = some exampleMesh ∧
    attachedSplat ((loadFailure ((loadSplat examplePlacedState "u2").1) 7).1) = none := by
  constructor <;> rfl

/-- Claim C8 (amended): when a `loadSplat` whose asynchronous load fails
is issued from a non-busy state, the error is surfaced to the caller, the
in-flight flag is cleared so a subsequent `loadSplat` is accepted, and the
`splatMesh` reference is left unchanged — but the previously attached
content does not remain attached: it was detached when the load began
(the viewer is recreated at load start), so after the failure no content
is attached. -/
theorem load_failure_atomicity (s : PortalState) (url url2 : String) (e : ℕ)
    (h1 : s.isLoading = false)
    (h2 : s.splatOwnerGen ≠ some s.nextViewerGen) :
    (loadSplat s url).2 = .started ∧
    (loadFailure (loadSplat s url).1 e).2 = .error e ∧
    ((loadFailure (loadSplat s url).1 e).1).isLoading = false ∧
    (loadSplat ((loadFailure (loadSplat s url).1 e).1) url2).2 = .started ∧
    ((loadFailure (loadSplat s url).1 e).1).splatMesh = s.splatMesh ∧
    attachedSplat ((loadFailure (loadSplat s url).1 e).1) = none := by
  unfold loadSplat createFreshViewer loadFailure attachedSplat
  simp [h1, h2]

/-- Witness for C8 (amended): the concrete placed-and-loaded state. -/
theorem load_failure_atomicity_witness :
    ((loadFailure ((loadSplat examplePlacedState "u").1) 7).1).isLoading = false ∧
    attachedSplat ((loadFailure ((loadSplat examplePlacedState "u").1) 7).1) = none := by
  have h := load_failure_atomicity examplePlacedState "u" "v" 7 rfl
    (by simp [examplePlacedState])
  exact ⟨h.2.2.1, h.2.2.2.2.2⟩

/-! Preservation of the stencil/crossing-state coupling. -/

theorem stencilAuxInv_place (s : PortalState) (p cam : Vec3) :
    stencilAuxInv s = true → stencilAuxInv (place s p cam) = true := by
  intro h
  unfold stencilAuxInv at h ⊢
  unfold place playDoorAnimation setSplatStencil stencilMatchesState applyStencil
  cases hm : s.splatMesh <;>
    simp_all [stencilMatchesState]

theorem stencilAuxInv_update (s : PortalState) (z : ℚ) :
    stencilAuxInv s = true → stencilAuxInv (update s z) = true := by
  intro h
  unfold stencilAuxInv at h ⊢
  unfold update setSplatStencil stencilMatchesState applyStencil at *
  cases hm : s.splatMesh <;> cases hv : s.visible <;> cases hi : s.isInside <;>
    simp_all [hm, hv, hi] <;> split_ifs <;> simp_all

theorem stencilAuxInv_loadSplat (s : PortalState) (u : String) :
    stencilAuxInv s = true → stencilAuxInv (loadSplat s u).1 = true := by
  intro h
  unfold stencilAuxInv at h ⊢
  unfold loadSplat createFreshViewer
  by_cases hl : s.isLoading <;>
    simp_all [stencilMatchesState]

theorem stencilAuxInv_loadSuccess (c : UrlConfig) (s : PortalState)
    (raw : Option SplatMesh) :
    stencilAuxInv s = true → stencilAuxInv (loadSuccess c s raw) = true := by
  intro h
  unfold stencilAuxInv at h ⊢
  unfold loadSuccess setSplatStencil stencilMatchesState applyStencil
  cases hr : raw <;> cases hv : s.viewer <;>
    simp_all [stencilMatchesState]

theorem stencilAuxInv_loadFailure (s : PortalState) (e : ℕ) :
    stencilAuxInv s = true → stencilAuxInv (loadFailure s e).1 = true := by
  intro h
  unfold stencilAuxInv at h ⊢
  unfold loadFailure
  simp_all [stencilMatchesState]

theorem stencilAuxInv_applyOp (c : UrlConfig) (s : PortalState) (op : Op) :
    stencilAuxInv s = true → stencilAuxInv (applyOp c s op) = true := by
  cases op with
  | opPlace p cam => exact stencilAuxInv_place s p cam
  | opUpdate z => exact stencilAuxInv_update s z
  | opLoad u => exact stencilAuxInv_loadSplat s u
  | opLoadOk raw => exact stencilAuxInv_loadSuccess c s raw
  | opLoadFail e => exact stencilAuxInv_loadFailure s e

theorem stencilAuxInv_runOps (c : UrlConfig) (ops : List Op) :
    ∀ s : PortalState, stencilAuxInv s = true →
      stencilAuxInv (runOps c s ops) = true := by
  induction ops with
  | nil => intro s h; exact h
  | cons op ops ih =>
    intro s h
    exact ih _ (stencilAuxInv_applyOp c s op h)

/-- Claim C10: Stencil profile tracks crossing state: from construction,
after any sequence of placements, per-frame updates, load starts and load
completions, whenever a splat mesh is attached its stencil test is enabled
exactly when the crossing state is Outside (with function EQUAL against
reference 1 and KEEP ops), and disabled with the function reset to ALWAYS
exactly when the state is Inside. -/
theorem stencil_tracks_state (c : UrlConfig) (ops : List Op) :
    stencilMatchesState (runOps c initState ops) = true := by
  have hinit : stencilAuxInv initState = true := by
    unfold stencilAuxInv initState stencilMatchesState
    rfl
  have h := stencilAuxInv_runOps c ops initState hinit
  unfold stencilAuxInv at h
  exact (Bool.and_eq_true _ _ |>.mp h).2

end Portal

namespace PortalGeo

/-! Lemmas for the look-at basis. -/

theorem lengthSq_nonneg (v : VecR) : 0 ≤ v.lengthSq := by
  unfold VecR.lengthSq
  nlinarith [mul_self_nonneg v.x, mul_self_nonneg v.y, mul_self_nonneg v.z]

theorem comp_zero_of_lengthSq_zero (v : VecR) (h : v.lengthSq = 0) :
    v.x = 0 ∧ v.y = 0 ∧ v.z = 0 := by
  unfold VecR.lengthSq at h
  refine ⟨mul_self_eq_zero.mp ?_, mul_self_eq_zero.mp ?_, mul_self_eq_zero.mp ?_⟩ <;>
    nlinarith [mul_self_nonneg v.x, mul_self_nonneg v.y, mul_self_nonneg v.z]

/-- Evaluation of `lookAtBasis` when neither degenerate branch fires. -/
theorem lookAtBasis_eq (eye target : VecR)
    (h0 : (eye.sub target).lengthSq ≠ 0)
    (h1 : (worldUp.cross (eye.sub target).normalize).lengthSq ≠ 0) :
    lookAtBasis eye target worldUp =
      ⟨(worldUp.cross (eye.sub target).normalize).normalize,
       (eye.sub target).normalize.cross
         ((worldUp.cross (eye.sub target).normalize).normalize),
       (eye.sub target).normalize⟩ := by
  unfold lookAtBasis
  dsimp only
  rw [if_neg h0, if_neg h1]

/-- Evaluation of `lookAtBasis` when the eye coincides with the target:
three.js substitutes the view direction `(0, 0, 1)`. -/
theorem lookAtBasis_degenerate (eye target : VecR)
    (h0 : (eye.sub target).lengthSq = 0) :
    lookAtBasis eye target worldUp = ⟨⟨1, 0, 0⟩, ⟨0, 1, 0⟩, ⟨0, 0, 1⟩⟩ := by
  obtain ⟨hx, hy, _⟩ := comp_zero_of_lengthSq_zero _ h0
  unfold lookAtBasis
  dsimp only
  rw [if_pos h0]
  have hz1 : ({ eye.sub target with z := 1 } : VecR) = ⟨0, 0, 1⟩ := by
    rw [show ({ eye.sub target with z := 1 } : VecR) =
      ⟨(eye.sub target).x, (eye.sub target).y, 1⟩ from rfl, hx, hy]
  rw [hz1]
  have hn : (⟨0, 0, 1⟩ : VecR).normalize = ⟨0, 0, 1⟩ := by
    unfold VecR.normalize VecR.len VecR.lengthSq
    norm_num [Real.sqrt_one]
  rw [hn]
  have hcross : worldUp.cross ⟨0, 0, 1⟩ = ⟨1, 0, 0⟩ := by
    unfold VecR.cross worldUp
    norm_num
  rw [hcross]
  have hls : (⟨1, 0, 0⟩ : VecR).lengthSq = 1 := by
    unfold VecR.lengthSq
    norm_num
  rw [if_neg (by rw [hls]; norm_num)]
  rw [hcross]
  have hn2 : (⟨1, 0, 0⟩ : VecR).normalize = ⟨1, 0, 0⟩ := by
    unfold VecR.normalize VecR.len VecR.lengthSq
    norm_num [Real.sqrt_one]
  rw [hn2]
  have hy2 : (⟨0, 0, 1⟩ : VecR).cross ⟨1, 0, 0⟩ = ⟨0, 1, 0⟩ := by
    unfold VecR.cross
    norm_num
  rw [hy2]

/-- The look-at pipeline applied to a level (horizontal) view direction:
the resulting up axis is world up, and the forward axis is a positive
multiple of the view direction. -/
theorem lookAtBasis_level (eye target : VecR) (hy : eye.y = target.y) :
    (lookAtBasis eye target worldUp).y = worldUp ∧
    ((eye.sub target).lengthSq ≠ 0 →
      ∃ k : ℝ, 0 < k ∧
        (lookAtBasis eye target worldUp).z = VecR.smul k (eye.sub target)) := by
  have hz0y : (eye.sub target).y = 0 := by
    unfold VecR.sub
    rw [hy, sub_self]
  by_cases h0 : (eye.sub target).lengthSq = 0
  · rw [lookAtBasis_degenerate eye target h0]
    exact ⟨rfl, fun h => absurd h0 h⟩
  · have hd : 0 < (eye.sub target).lengthSq :=
      lt_of_le_of_ne (lengthSq_nonneg _) (Ne.symm h0)
    have hl : 0 < (eye.sub target).len := Real.sqrt_pos.mpr hd
    have hll : (eye.sub target).len * (eye.sub target).len =
        (eye.sub target).lengthSq := Real.mul_self_sqrt (le_of_lt hd)
    set z0 := eye.sub target with hz0def
    set l := z0.len with hldef
    have hz2 : z0.normalize = ⟨z0.x / l, 0, z0.z / l⟩ := by
      unfold VecR.normalize
      dsimp only
      rw [if_neg (ne_of_gt hl), ← hldef, hz0y, zero_div]
    have hsum : (z0.x / l) * (z0.x / l) + (z0.z / l) * (z0.z / l) = 1 := by
      have hls : z0.lengthSq = z0.x * z0.x + z0.z * z0.z := by
        unfold VecR.lengthSq
        rw [hz0y]
        ring
      field_simp
      nlinarith [hll, hls]
    have hcross : worldUp.cross ⟨z0.x / l, 0, z0.z / l⟩ =
        ⟨z0.z / l, 0, -(z0.x / l)⟩ := by
      unfold VecR.cross worldUp
      norm_num
    have hls1 : (⟨z0.z / l, 0, -(z0.x / l)⟩ : VecR).lengthSq = 1 := by
      unfold VecR.lengthSq
      nlinarith [hsum]
    have hn1 : (⟨z0.z / l, 0, -(z0.x / l)⟩ : VecR).normalize =
        ⟨z0.z / l, 0, -(z0.x / l)⟩ := by
      unfold VecR.normalize VecR.len
      rw [hls1, Real.sqrt_one]
      norm_num
    have heval := lookAtBasis_eq eye target h0 (by rw [hz2, hcross, hls1]; norm_num)
    rw [← hz0def] at heval
    rw [hz2, hcross, hn1] at heval
    constructor
    · rw [heval]
      show (⟨z0.x / l, 0, z0.z / l⟩ : VecR).cross ⟨z0.z / l, 0, -(z0.x / l)⟩ = worldUp
      unfold VecR.cross worldUp
      rw [show (0:ℝ) * -(z0.x / l) - z0.z / l * 0 = 0 by ring,
          show z0.x / l * 0 - 0 * (z0.z / l) = 0 by ring,
          show z0.z / l * (z0.z / l) - z0.x / l * -(z0.x / l) =
            (z0.x / l) * (z0.x / l) + (z0.z / l) * (z0.z / l) by ring, hsum]
    · intro _
      refine ⟨1 / l, by positivity, ?_⟩
      rw [heval]
      show (⟨z0.x / l, 0, z0.z / l⟩ : VecR) = VecR.smul (1 / l) z0
      unfold VecR.smul
      rw [hz0y]
      rw [show 1 / l * z0.x = z0.x / l by ring,
          show 1 / l * z0.z = z0.z / l by ring,
          show 1 / l * 0 = 0 by ring]

end PortalGeo

namespace PortalGeo

/-- Claim C9: Yaw-only billboarding: `place` sets the assembly position to
the ground position and orients it by a look-at whose target is the camera
position with its vertical coordinate replaced by the assembly's; the
resulting orientation has its local up axis equal to world up (zero roll
and pitch), and whenever the camera is horizontally distinct from the
assembly the local +Z axis points toward the camera's horizontal
position (a positive multiple of the horizontal offset). -/
theorem place_yaw_only (s : Portal.PortalState) (pos cam : Portal.Vec3)
    (p c : VecR) :
    (Portal.place s pos cam).groupPosition = pos ∧
    (placeBasis p c).y = worldUp ∧
    ((c.x - p.x ≠ 0 ∨ c.z - p.z ≠ 0) →
      ∃ k : ℝ, 0 < k ∧
        (placeBasis p c).z = VecR.smul k ⟨c.x - p.x, 0, c.z - p.z⟩) := by
  have hlevel := lookAtBasis_level ⟨c.x, p.y, c.z⟩ p rfl
  have hsub : (⟨c.x, p.y, c.z⟩ : VecR).sub p =
      ⟨c.x - p.x, p.y - p.y, c.z - p.z⟩ := rfl
  refine ⟨?_, ?_, ?_⟩
  · unfold Portal.place Portal.playDoorAnimation Portal.setSplatStencil
    cases hm : s.splatMesh <;> simp [hm]
  · exact hlevel.1
  · intro h
    have hne : ((⟨c.x, p.y, c.z⟩ : VecR).sub p).lengthSq ≠ 0 := by
      rw [hsub]
      unfold VecR.lengthSq
      dsimp only
      intro heq
      rcases h with h | h
      · nlinarith [mul_self_pos.mpr h, mul_self_nonneg (p.y - p.y),
          mul_self_nonneg (c.z - p.z)]
      · nlinarith [mul_self_pos.mpr h, mul_self_nonneg (p.y - p.y),
          mul_self_nonneg (c.x - p.x)]
    obtain ⟨k, hk, hz⟩ := hlevel.2 hne
    refine ⟨k, hk, ?_⟩
    show (lookAtBasis ⟨c.x, p.y, c.z⟩ p worldUp).z = _
    rw [hz, hsub]
    unfold VecR.smul
    dsimp only
    rw [sub_self]

/-- Witness for C9: the spec's example placement, ground `(0, 0, -2)` and
camera `(0, 1.6, 0)`: the assembly's up axis is world up and its +Z axis
is a positive multiple of the horizontal direction toward the camera. -/
theorem place_yaw_only_witness :
    (placeBasis ⟨0, 0, -2⟩ ⟨0, 8/5, 0⟩).y = worldUp ∧
    ∃ k : ℝ, 0 < k ∧
      (placeBasis ⟨0, 0, -2⟩ ⟨0, 8/5, 0⟩).z = VecR.smul k ⟨0, 0, 2⟩ := by
  have h := place_yaw_only Portal.initState ⟨0, 0, 0⟩ ⟨0, 0, 0⟩
    ⟨0, 0, -2⟩ ⟨0, 8/5, 0⟩
  refine ⟨h.2.1, ?_⟩
  obtain ⟨k, hk, hz⟩ := h.2.2 (Or.inr (by norm_num))
  refine ⟨k, hk, ?_⟩
  rw [hz]
  unfold VecR.smul
  norm_num [VecR.mk.injEq]

end PortalGeo
